import Mathlib

/-!
# Verification model of `gym/envs/robotics/robot_env.py`

A shallow embedding of the `RobotEnv` goal-conditioned environment adapter.
Numeric scalars of the Python code (floats) are modelled as exact rationals;
numpy arrays become lists of rationals; the external MuJoCo simulator, the
viewer and the texture/light/camera modders are modelled through explicit
state records and collaborator functions; the abstract extension hooks of the
class become function-valued fields of the environment record.
-/

namespace RobotEnvSpec

/-- Scalars of the model: Python floats are embedded as exact rationals. -/
abbrev Scalar := ℚ

/-- Numpy 1-d arrays are embedded as lists of scalars. -/
abbrev Vec := List Scalar

/-- Floor of a rational as an integer, via Euclidean division of the
numerator by the (positive) denominator. -/
def ratFloorZ (q : ℚ) : ℤ := q.num.ediv q.den

/-- Ceiling of a rational as an integer. -/
def ratCeilZ (q : ℚ) : ℤ := -ratFloorZ (-q)

/-- Models `np.round` on an exact rational: round half to even. -/
def npRound (q : ℚ) : ℤ :=
  if q - ratFloorZ q < 1/2 then ratFloorZ q
  else if (1/2 : ℚ) < q - ratFloorZ q then ratFloorZ q + 1
  else if ratFloorZ q % 2 = 0 then ratFloorZ q else ratFloorZ q + 1

/-- Models Python `int(...)` on an exact rational: truncation toward zero. -/
def pyInt (q : ℚ) : ℤ := if 0 ≤ q then ratFloorZ q else ratCeilZ q

/-- Embeds the `dt` property body: `sim.model.opt.timestep * sim.nsubsteps`
(`robot_env.py`, lines 56-58). -/
def dtOf (timestep : Scalar) (nsubsteps : Nat) : Scalar := timestep * nsubsteps

/-- Embeds the `video.frames_per_second` metadata entry:
`int(np.round(1.0 / self.dt))` (`robot_env.py`, lines 36-39). -/
def videoFps (timestep : Scalar) (nsubsteps : Nat) : ℤ :=
  pyInt ((npRound (1 / dtOf timestep nsubsteps) : ℤ) : ℚ)

/-- Boolean substring-prefix test on character lists, used to model Python
string operations by structural recursion. -/
def strStartsWith (s pre : String) : Bool := pre.data.isPrefixOf s.data

/-- Boolean suffix test on strings. -/
def strEndsWith (s suf : String) : Bool := suf.data.isSuffixOf s.data

/-- Models POSIX `os.path.join` of a directory with a relative component. -/
def posixJoin (a b : String) : String :=
  if strEndsWith a "/" then a ++ b else a ++ "/" ++ b

/-- Embeds the model-path resolution of `RobotEnv.__init__`
(`robot_env.py`, lines 18-22): an absolute path (starting with `/`) is used
as-is, otherwise the path is joined under the `assets` directory next to the
module file (whose directory is the `dirname` argument). -/
def resolveModelPath (dirname model_path : String) : String :=
  if strStartsWith model_path "/" then model_path
  else posixJoin (posixJoin dirname "assets") model_path

/-- Python-level errors surfaced by the model. -/
inductive PyError
  | typeError (msg : String)
  | ioError (msg : String)
deriving DecidableEq

/-- Calls into the external simulation engine performed by the constructor. -/
inductive SimCall
  | loadModel (path : String)
  | mkSim (nsubsteps : Nat)
deriving DecidableEq

/-- Embeds the load phase of `RobotEnv.__init__` (`robot_env.py`,
lines 18-28): resolve the model path, raise `IOError` if the file does not
exist, otherwise load the model and construct the simulation.  The returned
list records the simulator interactions performed; the error branch performs
none. -/
def initLoad (fileExists : String → Bool) (dirname model_path : String)
    (n_substeps : Nat) : Except PyError (List SimCall) :=
  if fileExists (resolveModelPath dirname model_path) then
    Except.ok [SimCall.loadModel (resolveModelPath dirname model_path),
               SimCall.mkSim n_substeps]
  else
    Except.error (PyError.ioError
      ("File " ++ resolveModelPath dirname model_path ++ " does not exist"))

/-! ## Data model: observations, simulator state, collaborators -/

/-- The observation dict produced by the `_get_obs` hook. -/
structure Obs where
  observation : Vec
  achieved_goal : Vec
  desired_goal : Vec
deriving DecidableEq

/-- The `info` dict built by `step` (`robot_env.py`, lines 74-76). -/
structure Info where
  is_success : Bool
deriving DecidableEq

/-- Rendering-layer light parameters, as mutated by the external
`LightModder` in `set_light`. -/
structure LightParams where
  pos : Vec
  dir : Vec
  castshadow : Bool
  ambient : Vec
  diffuse : Vec
  specular : Vec
deriving DecidableEq

/-- Rendering-layer portion of the simulator scene: per-geom appearance
(as mutated by the `TextureModder`), the light, and the external camera
position (as mutated by the `CameraModder`). -/
structure RenderState where
  geoms : List (String × Vec)
  light : LightParams
  cameraPos : Vec
deriving DecidableEq

/-- State of the external MuJoCo simulation: the physical state snapshot
(qpos/qvel and friends, as captured by `sim.get_state()`) and the
rendering-layer scene parameters. -/
structure SimState where
  phys : Vec
  render : RenderState
deriving DecidableEq

/-- The lazily constructed rendering viewer (`mujoco_py.MjViewer`);
its adjustable settings (e.g. camera placement set by `_viewer_setup`). -/
structure ViewerState where
  settings : Vec
deriving DecidableEq

/-- A fresh `mujoco_py.MjViewer` before `_viewer_setup` has run. -/
def mkViewer : ViewerState := { settings := [] }

/-- The instance RNG installed by `seed` via `gym.utils.seeding.np_random`. -/
structure NpRandom where
  key : Nat
deriving DecidableEq

/-- Models `gym.utils.seeding.np_random`: returns the RNG seeded with the
given seed together with the effective seed.  The entropy-derived seed used
for `None` (an external OS source) is modelled as `0`. -/
def np_random_mk : Option Nat → NpRandom × Nat
  | some n => (⟨n⟩, n)
  | none => (⟨0⟩, 0)

/-- The process-global numpy RNG (`np.random`), modelled as a stream of raw
draws together with a cursor.  `set_light` and `set_camera` draw from this
RNG, not from the instance RNG installed by `seed`. -/
structure GlobalRng where
  stream : Nat → Scalar
  idx : Nat

/-- One raw draw from the global RNG. -/
def drawRaw (g : GlobalRng) : Scalar × GlobalRng :=
  (g.stream g.idx, { g with idx := g.idx + 1 })

/-- Models `np.random.uniform(lo, hi, size=(1,))`: the raw draw is the
unit-interval sample, scaled affinely into `[lo, hi)`. -/
def npUniform (lo hi : Scalar) (g : GlobalRng) : Scalar × GlobalRng :=
  let r := drawRaw g
  (lo + (hi - lo) * r.1, r.2)

/-- Models `np.random.normal(mu, sigma, size=(1,))`: the raw draw is the
standard-normal sample, shifted and scaled. -/
def npNormal (mu sigma : Scalar) (g : GlobalRng) : Scalar × GlobalRng :=
  let r := drawRaw g
  (mu + sigma * r.1, r.2)

/-- The declared `action_space` descriptor (`gym.spaces.Box`): element-wise
lower and upper bounds. -/
structure BoxSpace where
  low : Vec
  high : Vec
deriving DecidableEq

/-- Embeds line 48 of `robot_env.py`:
`action_val = 1. if n_actions == 4 else np.pi`.  `np.pi` is embedded as the
decimal rendering of the double constant. -/
def npPi : Scalar := 3.141592653589793

/-- The action-bound magnitude chosen at construction. -/
def actionVal (n_actions : Nat) : Scalar := if n_actions = 4 then 1 else npPi

/-- Embeds line 49 of `robot_env.py`:
`spaces.Box(-action_val, action_val, shape=(n_actions,))`, with the scalar
bounds broadcast to the declared shape. -/
def mkActionSpace (n_actions : Nat) : BoxSpace :=
  { low := List.replicate n_actions (-actionVal n_actions),
    high := List.replicate n_actions (actionVal n_actions) }

/-! ## The environment record

`RobotEnv` is abstract: the four required hooks, the optional callbacks and
the overridable `_reset_sim`/`compute_reward` are function-valued fields, as
are the operations of the external simulation engine.  The remaining fields
are the adapter-owned state from `__init__`. -/

structure RobotEnv where
  /-- Required hook `_get_obs` (abstract in the source). -/
  get_obs : SimState → Obs
  /-- Required hook `_set_action` (abstract in the source). -/
  set_action : Vec → SimState → SimState
  /-- Required hook `_is_success` (abstract in the source). -/
  is_success : Vec → Vec → Bool
  /-- Required hook `_sample_goal` (abstract in the source). -/
  sample_goal : SimState → Vec
  /-- Caller-overridable reward hook `compute_reward` from `gym.GoalEnv`. -/
  compute_reward : Vec → Vec → Info → Scalar
  /-- Optional callback `_step_callback` (default no-op). -/
  step_callback : SimState → SimState
  /-- Optional callback `_render_callback` (default no-op). -/
  render_callback : SimState → SimState
  /-- Optional callback `_viewer_setup` (default no-op), run once when the
  viewer is created. -/
  viewer_setup : ViewerState → ViewerState
  /-- The `_reset_sim` implementation invoked by the retry loop; it accepts
  the `object_pos` argument that `reset` passes at the call site. -/
  reset_sim : Option Vec → SimState → Bool × SimState
  /-- External engine: `sim.step()`, one sub-stepped tick. -/
  sim_tick : SimState → SimState
  /-- External engine: `sim.forward()`. -/
  sim_forward : SimState → SimState
  /-- External viewer: `read_pixels(width, height)` row-major pixel rows. -/
  read_pixels : SimState → Nat → Nat → List Vec
  /-- The owned simulation handle `self.sim`. -/
  sim : SimState
  /-- The current goal `self.goal`. -/
  goal : Vec
  /-- The construction-time snapshot `self.initial_state`. -/
  initial_state : Vec
  /-- The lazily created viewer `self.viewer`. -/
  viewer : Option ViewerState
  /-- The instance RNG `self.np_random` installed by `seed`. -/
  np_random : NpRandom
  /-- The declared `self.action_space`. -/
  action_space : BoxSpace
  /-- Geometry names from the loaded model (`sim.model.geom_names`). -/
  geom_names : List String
  /-- `self.camera_init`, captured from the camera modder at construction. -/
  camera_init : Vec
  /-- The model timestep `sim.model.opt.timestep`. -/
  timestep : Scalar
  /-- The substep count `sim.nsubsteps`. -/
  nsubsteps : Nat

/-- The `dt` property (`robot_env.py`, lines 56-58). -/
def RobotEnv.dt (env : RobotEnv) : Scalar := env.timestep * env.nsubsteps

/-- The `video.frames_per_second` metadata entry of the instance. -/
def RobotEnv.metadataFps (env : RobotEnv) : ℤ := videoFps env.timestep env.nsubsteps

/-- The `seed` method (`robot_env.py`, lines 63-65). -/
def RobotEnv.seed (env : RobotEnv) (s : Option Nat) : RobotEnv × List Nat :=
  let r := np_random_mk s
  ({ env with np_random := r.1 }, [r.2])

/-! ## step -/

/-- Element-wise clamp of one scalar, as `np.clip` does: `min (max x lo) hi`. -/
def clipQ (x lo hi : Scalar) : Scalar := min (max x lo) hi

/-- Embeds `np.clip(action, low, high)` on same-shape 1-d arrays. -/
def clipVec : Vec → Vec → Vec → Vec
  | x :: xs, l :: ls, h :: hs => clipQ x l h :: clipVec xs ls hs
  | _, _, _ => []

/-- The simulator state reached by `step` after clipping the action,
applying `_set_action`, ticking `sim.step()` and running `_step_callback`
(`robot_env.py`, lines 68-71). -/
def stepPostSim (env : RobotEnv) (action : Vec) : SimState :=
  env.step_callback (env.sim_tick
    (env.set_action (clipVec action env.action_space.low env.action_space.high) env.sim))

/-- The 4-tuple returned by `step`. -/
structure StepResult where
  obs : Obs
  reward : Scalar
  done : Bool
  info : Info
deriving DecidableEq

/-- The `step` method (`robot_env.py`, lines 67-79). -/
def RobotEnv.step (env : RobotEnv) (action : Vec) : StepResult × RobotEnv :=
  let a := clipVec action env.action_space.low env.action_space.high
  let s1 := env.set_action a env.sim
  let s2 := env.sim_tick s1
  let s3 := env.step_callback s2
  let obs := env.get_obs s3
  let info : Info := { is_success := env.is_success obs.achieved_goal env.goal }
  let reward := env.compute_reward obs.achieved_goal env.goal info
  ({ obs := obs, reward := reward, done := false, info := info },
   { env with sim := s3 })

/-! ## Scene-randomization helpers -/

/-- Element-wise sum of same-shape 1-d arrays. -/
def vecAdd : Vec → Vec → Vec
  | x :: xs, y :: ys => (x + y) :: vecAdd xs ys
  | _, _ => []

/-- Substring check on character lists, by structural recursion. -/
def charsContain (needle : List Char) : List Char → Bool
  | [] => needle.isEmpty
  | c :: t => needle.isPrefixOf (c :: t) || charsContain needle t

/-- Models Python `needle in hay` on strings. -/
def strContains (hay needle : String) : Bool := charsContain needle.data hay.data

/-- Models the external `TextureModder.rand_all(name)`: a fresh random
appearance for the geom, drawn from the global numpy RNG. -/
def texRandAll (g : GlobalRng) : Vec × GlobalRng :=
  let r := drawRaw g
  ([r.1, r.1, r.1], r.2)

/-- Models the external `TextureModder.rand_rgb(name, rgb=(1, 0, 0))`: a
random red appearance, drawn from the global numpy RNG. -/
def texRandRgbRed (g : GlobalRng) : Vec × GlobalRng :=
  let r := drawRaw g
  ([r.1, 0, 0], r.2)

/-- Replace the appearance recorded for one geom name. -/
def setGeomApp (gs : List (String × Vec)) (name : String) (v : Vec) :
    List (String × Vec) :=
  gs.map (fun p => if p.1 = name then (p.1, v) else p)

/-- The loop body of `rand_texture` over `sim.model.geom_names`
(`robot_env.py`, lines 81-89): geoms whose name contains `robot0:` are
skipped, `object0` gets a random red, every other geom a fully random
appearance. -/
def randTextureGo (gs : List (String × Vec)) (g : GlobalRng) :
    List String → List (String × Vec) × GlobalRng
  | [] => (gs, g)
  | name :: rest =>
    if strContains name "robot0:" then randTextureGo gs g rest
    else if name = "object0" then
      let p := texRandRgbRed g
      randTextureGo (setGeomApp gs name p.1) p.2 rest
    else
      let p := texRandAll g
      randTextureGo (setGeomApp gs name p.1) p.2 rest

/-- The `rand_texture` method (`robot_env.py`, lines 81-89). -/
def rand_texture (env : RobotEnv) (g : GlobalRng) : RobotEnv × GlobalRng :=
  let r := randTextureGo env.sim.render.geoms g env.geom_names
  ({ env with sim := { env.sim with render := { env.sim.render with geoms := r.1 } } },
   r.2)

/-- The `set_light` method (`robot_env.py`, lines 90-104): deterministic
position, random direction drawn from the process-global numpy RNG, fixed
shadow/ambient/diffuse/specular settings, applied through the `LightModder`. -/
def set_light (env : RobotEnv) (g : GlobalRng) : RobotEnv × GlobalRng :=
  let arm_init_pos : Vec := [1.425, 1.333, 0]
  let lightpos := vecAdd [2, 0, 3] arm_init_pos
  let d1 := npUniform (-0.9) 0.1 g
  let d2 := npUniform (-0.9) 0.9 d1.2
  let d3 := npUniform (-0.9) 0 d2.2
  let light : LightParams :=
    { pos := lightpos, dir := [d1.1, d2.1, d3.1], castshadow := true,
      ambient := [0.2, 0.2, 0.2], diffuse := [0.7, 0.7, 0.7],
      specular := [0.3, 0.3, 0.3] }
  ({ env with sim := { env.sim with render := { env.sim.render with light := light } } },
   d3.2)

/-- The `set_camera` method (`robot_env.py`, lines 106-110): a random
y-offset drawn from the process-global numpy RNG is added to the
construction-time camera position, applied through the `CameraModder`. -/
def set_camera (env : RobotEnv) (g : GlobalRng) : RobotEnv × GlobalRng :=
  let r := npNormal 0 0.05 g
  let pos := vecAdd [0, r.1, 0] env.camera_init
  ({ env with sim := { env.sim with render := { env.sim.render with cameraPos := pos } } },
   r.2)

/-! ## reset -/

/-- The phase of `reset` before the retry loop (`robot_env.py`,
lines 112-126): conditional scene randomization in source order, then the
goal resample `self.goal = self._sample_goal().copy()`. -/
def resetPre (env : RobotEnv) (rand_text rand_shadow rand_cam : Bool)
    (g : GlobalRng) : RobotEnv × GlobalRng :=
  let p1 := if rand_text then rand_texture env g else (env, g)
  let p2 := if rand_shadow then set_light p1.1 p1.2 else p1
  let p3 := if rand_cam then set_camera p2.1 p2.2 else p2
  ({ p3.1 with goal := p3.1.sample_goal p3.1.sim }, p3.2)

/-- The `while not did_reset_sim` retry loop of `reset`, run with explicit
fuel: `none` means the loop has not terminated within `fuel` calls.  The
unbounded Python loop is the limit over all fuels. -/
def resetSimLoop (rs : SimState → Bool × SimState) : Nat → SimState → Option SimState
  | 0, _ => none
  | fuel + 1, s => if (rs s).1 then some (rs s).2 else resetSimLoop rs fuel (rs s).2

/-- The simulator state seen at the start of the `k`-th retry-loop call. -/
def iterState (rs : SimState → Bool × SimState) : Nat → SimState → SimState
  | 0, s => s
  | k + 1, s => iterState rs k (rs s).2

/-- The result of the `k`-th `_reset_sim` call made by `reset`. -/
def resetAttempt (env : RobotEnv) (op : Option Vec) (rt rsh rc : Bool)
    (g : GlobalRng) (k : Nat) : Bool × SimState :=
  (resetPre env rt rsh rc g).1.reset_sim op
    (iterState ((resetPre env rt rsh rc g).1.reset_sim op) k
      (resetPre env rt rsh rc g).1.sim)

/-- The `reset` method (`robot_env.py`, lines 112-132), with explicit fuel
for the unbounded retry loop: randomize the scene as requested, resample the
goal, call `_reset_sim(object_pos)` until it reports success, and return the
observation from `_get_obs`. -/
def reset (env : RobotEnv) (fuel : Nat) (object_pos : Option Vec)
    (rand_text rand_shadow rand_cam : Bool) (g : GlobalRng) :
    Option (Obs × RobotEnv × GlobalRng) :=
  match resetSimLoop ((resetPre env rand_text rand_shadow rand_cam g).1.reset_sim object_pos)
      fuel (resetPre env rand_text rand_shadow rand_cam g).1.sim with
  | some s =>
    some ((resetPre env rand_text rand_shadow rand_cam g).1.get_obs s,
          { (resetPre env rand_text rand_shadow rand_cam g).1 with sim := s },
          (resetPre env rand_text rand_shadow rand_cam g).2)
  | none => none

/-- `reset()` with the Python default arguments `object_pos=None`,
`rand_text=False`, `rand_shadow=False`, `rand_cam=False`. -/
def resetDefault (env : RobotEnv) (fuel : Nat) (g : GlobalRng) :
    Option (Obs × RobotEnv × GlobalRng) :=
  reset env fuel none false false false g

/-! ## close / render / viewer -/

/-- The `close` method (`robot_env.py`, lines 133-136): release the viewer
if present. -/
def RobotEnv.close (env : RobotEnv) : RobotEnv :=
  match env.viewer with
  | some _ => { env with viewer := none }
  | none => env

/-- The `_get_viewer` method (`robot_env.py`, lines 152-156): lazily create
the viewer and run `_viewer_setup` on creation. -/
def RobotEnv.getViewer (env : RobotEnv) : ViewerState × RobotEnv :=
  match env.viewer with
  | some v => (v, env)
  | none =>
    let v := env.viewer_setup mkViewer
    (v, { env with viewer := some v })

/-- The `render` method (`robot_env.py`, lines 138-150): run
`_render_callback`, then for `rgb_array` read a 500x500 pixel buffer through
the viewer and flip it vertically; for `human` drive the viewer's
interactive render; any other mode falls through and returns nothing. -/
def RobotEnv.render (env : RobotEnv) (mode : String) : Option (List Vec) × RobotEnv :=
  let e := { env with sim := env.render_callback env.sim }
  if mode = "rgb_array" then
    (some ((e.getViewer.2.read_pixels e.getViewer.2.sim 500 500).reverse),
     e.getViewer.2)
  else if mode = "human" then
    (none, e.getViewer.2)
  else
    (none, e)

/-! ## The `_reset_sim` signature mismatch

`reset` invokes `self._reset_sim(object_pos)` with one positional argument
(line 128), while the inherited default `_reset_sim` (lines 161-169) is
declared with no parameter besides `self`.  Python call semantics are
modelled explicitly: a call whose positional argument count differs from the
declared parameter count raises `TypeError` instead of running the body. -/

/-- Parameters (besides `self`) of the default `_reset_sim` declaration. -/
def defaultResetSimParamCount : Nat := 0

/-- Positional arguments (besides `self`) at the `reset` call site
`self._reset_sim(object_pos)`. -/
def resetCallArgCount : Nat := 1

/-- The body of the default `_reset_sim`: restore the construction-time
snapshot, call `sim.forward()`, and report success. -/
def defaultResetSimBody (env : RobotEnv) (s : SimState) : Bool × SimState :=
  (true, env.sim_forward { s with phys := env.initial_state })

/-- Python invocation of the default `_reset_sim` with `nargs` positional
arguments: the body runs only when the argument count matches the declared
parameter count, otherwise a `TypeError` is raised. -/
def invokeDefaultResetSim (env : RobotEnv) (nargs : Nat) (s : SimState) :
    Except PyError (Bool × SimState) :=
  if nargs = defaultResetSimParamCount then Except.ok (defaultResetSimBody env s)
  else Except.error (PyError.typeError
    "_reset_sim takes 1 positional argument but 2 were given")

/-! ## Concrete instances used as evaluation witnesses -/

/-- A concrete simulator state for a small scene. -/
def demoSim : SimState :=
  { phys := [0],
    render :=
      { geoms := [("object0", [0, 0, 0]), ("table0", [0, 0, 0]),
                  ("robot0:base", [0, 0, 0])],
        light := { pos := [0, 0, 0], dir := [0, 0, -1], castshadow := false,
                   ambient := [0, 0, 0], diffuse := [0, 0, 0],
                   specular := [0, 0, 0] },
        cameraPos := [1, 0.75, 1.5] } }

/-- A concrete subclass instance: every hook is implemented by a simple
total function, and `_reset_sim` succeeds immediately. -/
def demoEnv : RobotEnv :=
  { get_obs := fun s =>
      { observation := s.phys, achieved_goal := s.phys, desired_goal := [1] },
    set_action := fun _ s => s,
    is_success := fun a b => decide (a = b),
    sample_goal := fun _ => [1],
    compute_reward := fun _ _ _ => 0,
    step_callback := fun s => s,
    render_callback := fun s => s,
    viewer_setup := fun v => v,
    reset_sim := fun _ s => (true, s),
    sim_tick := fun s => s,
    sim_forward := fun s => s,
    read_pixels := fun _ _ _ => [],
    sim := demoSim,
    goal := [1],
    initial_state := [0],
    viewer := none,
    np_random := ⟨0⟩,
    action_space := mkActionSpace 4,
    geom_names := ["object0", "robot0:base", "table0"],
    camera_init := [1, 0.75, 1.5],
    timestep := 0.002,
    nsubsteps := 20 }

/-- A variant whose `_reset_sim` fails on the first two calls and succeeds
on the third, tracking the attempt count in the length of `phys`. -/
def demoEnvRetry : RobotEnv :=
  { demoEnv with
    reset_sim := fun _ s => (decide (3 ≤ s.phys.length), { s with phys := 0 :: s.phys }) }

/-- A variant whose `_reset_sim` never reports success. -/
def demoEnvNever : RobotEnv :=
  { demoEnv with reset_sim := fun _ s => (false, s) }

/-- A deterministic global-RNG state whose raw draws are all `0`. -/
def gZero : GlobalRng := ⟨fun _ => 0, 0⟩

/-- A deterministic global-RNG state whose raw draws are all `1`. -/
def gOne : GlobalRng := ⟨fun _ => 1, 0⟩

/-- One adapter instance seeded with 42. -/
def adapterA : RobotEnv := (demoEnv.seed (some 42)).1

/-- A second adapter instance seeded with the same value 42. -/
def adapterB : RobotEnv := (demoEnv.seed (some 42)).1

/-! ## Claim theorems -/

/-- C1: for every action, `step(action)` returns a 4-tuple
`(observation, reward, done, info)` in which `done` is always false,
`info.is_success` equals `_is_success(obs.achieved_goal, goal)` evaluated on
the observation returned from `_get_obs` after the simulator tick, and
`reward` equals `compute_reward(obs.achieved_goal, goal, info)` on that same
observation and info. -/
theorem step_contract (env : RobotEnv) (a : Vec) :
    (env.step a).1.done = false
    ∧ (env.step a).1.obs = env.get_obs (stepPostSim env a)
    ∧ (env.step a).1.info.is_success
        = env.is_success (env.get_obs (stepPostSim env a)).achieved_goal env.goal
    ∧ (env.step a).1.reward
        = env.compute_reward (env.get_obs (stepPostSim env a)).achieved_goal
            env.goal (env.step a).1.info :=
  ⟨rfl, rfl, rfl, rfl⟩

theorem clipQ_idem (x lo hi : Scalar) : clipQ (clipQ x lo hi) lo hi = clipQ x lo hi := by
  unfold clipQ
  rcases le_total lo hi with h | h
  · have h1 : lo ≤ min (max x lo) hi := le_min (le_max_right x lo) h
    rw [max_eq_left h1]
    exact min_eq_left (min_le_right (max x lo) hi)
  · have h2 : min (max x lo) hi = hi := min_eq_right (h.trans (le_max_right x lo))
    rw [h2, max_eq_right h]
    exact min_eq_right h

theorem clipVec_idem (a lo hi : Vec) :
    clipVec (clipVec a lo hi) lo hi = clipVec a lo hi := by
  induction a generalizing lo hi with
  | nil => cases lo <;> cases hi <;> simp [clipVec]
  | cons x xs ih => cases lo <;> cases hi <;> simp [clipVec, clipQ_idem, ih]

/-- C2: the action is element-wise clipped into `[low, high]` before being
passed to `_set_action`, so `step(action)` and
`step(clip(action, low, high))` produce identical simulator effects and
identical return values; the clipped call is never rejected with an error
(`step` is total on every action vector). -/
theorem step_clip_invariant (env : RobotEnv) (a : Vec) :
    env.step (clipVec a env.action_space.low env.action_space.high) = env.step a := by
  simp only [RobotEnv.step, clipVec_idem]

/-- C4: `reset` invokes `_reset_sim` with one positional argument while the
inherited default `_reset_sim` is declared to take none; under Python call
semantics every retry-loop invocation of the default implementation is an
argument-count `TypeError`, never a call that returns `True`. -/
theorem reset_sim_arity_mismatch :
    defaultResetSimParamCount = 0 ∧ resetCallArgCount = 1
    ∧ defaultResetSimParamCount ≠ resetCallArgCount
    ∧ ∀ (env : RobotEnv) (s : SimState),
        invokeDefaultResetSim env resetCallArgCount s
          = Except.error (PyError.typeError
              "_reset_sim takes 1 positional argument but 2 were given")
        ∧ ∀ r, invokeDefaultResetSim env resetCallArgCount s ≠ Except.ok r := by
  refine ⟨rfl, rfl, by decide, fun env s => ⟨rfl, fun r h => ?_⟩⟩
  exact Except.noConfusion h

theorem resetSimLoop_first_success (rs : SimState → Bool × SimState) :
    ∀ (N fuel : Nat) (s : SimState),
      (∀ k, k < N → (rs (iterState rs k s)).1 = false) →
      (rs (iterState rs N s)).1 = true → N < fuel →
      resetSimLoop rs fuel s = some ((rs (iterState rs N s)).2) := by
  intro N
  induction N with
  | zero =>
    intro fuel s h0 hN hlt
    cases fuel with
    | zero => exact absurd hlt (by omega)
    | succ f =>
      have : (rs s).1 = true := hN
      simp [resetSimLoop, this]
      rfl
  | succ N ih =>
    intro fuel s h hN hlt
    cases fuel with
    | zero => exact absurd hlt (by omega)
    | succ f =>
      have h0 : (rs s).1 = false := h 0 (Nat.succ_pos N)
      simp [resetSimLoop, h0]
      exact ih f (rs s).2 (fun k hk => h (k + 1) (by omega)) hN (by omega)

theorem resetSimLoop_no_success (rs : SimState → Bool × SimState) :
    ∀ (fuel : Nat) (s : SimState),
      (∀ k, (rs (iterState rs k s)).1 = false) →
      resetSimLoop rs fuel s = none := by
  intro fuel
  induction fuel with
  | zero => intro s _; rfl
  | succ f ih =>
    intro s h
    have h0 : (rs s).1 = false := h 0
    simp [resetSimLoop, h0]
    exact ih (rs s).2 (fun k => h (k + 1))

/-- C3: `reset` repeatedly invokes `_reset_sim(object_pos)` until it returns
a truthy success value, with no iteration cap: if the `N`-th attempt is the
first to report success then `reset` (given any fuel beyond `N`) returns the
post-reset observation computed by `_get_obs` on the state the successful
attempt produced; if no attempt ever reports success, `reset` returns
nothing for every fuel, i.e. the unbounded Python loop never returns. -/
theorem reset_retry_loop (env : RobotEnv) (op : Option Vec)
    (rt rsh rc : Bool) (g : GlobalRng) (N fuel : Nat) :
    ((∀ k, k < N → (resetAttempt env op rt rsh rc g k).1 = false) →
      (resetAttempt env op rt rsh rc g N).1 = true → N < fuel →
      reset env fuel op rt rsh rc g =
        some ((resetPre env rt rsh rc g).1.get_obs (resetAttempt env op rt rsh rc g N).2,
              { (resetPre env rt rsh rc g).1 with
                  sim := (resetAttempt env op rt rsh rc g N).2 },
              (resetPre env rt rsh rc g).2))
    ∧ ((∀ k, (resetAttempt env op rt rsh rc g k).1 = false) →
        reset env fuel op rt rsh rc g = none) := by
  constructor
  · intro h1 h2 h3
    have hl := resetSimLoop_first_success
      ((resetPre env rt rsh rc g).1.reset_sim op) N fuel
      (resetPre env rt rsh rc g).1.sim h1 h2 h3
    unfold reset
    rw [hl]
    rfl
  · intro h
    have hl := resetSimLoop_no_success
      ((resetPre env rt rsh rc g).1.reset_sim op) fuel
      (resetPre env rt rsh rc g).1.sim h
    unfold reset
    rw [hl]

/-- Witness for C3: with a `_reset_sim` that fails twice and then succeeds,
`reset` returns the observation `_get_obs` computes from the post-reset
state; with a `_reset_sim` that never succeeds, `reset` never returns. -/
theorem reset_retry_loop_witness :
    (reset demoEnvRetry 5 none false false false gZero).map Prod.fst
      = some { observation := [0, 0, 0, 0], achieved_goal := [0, 0, 0, 0],
               desired_goal := [1] }
    ∧ reset demoEnvNever 7 none false false false gZero = none := by
  constructor
  · rw [(reset_retry_loop demoEnvRetry none false false false gZero 2 5).1
      (by decide) (by decide) (by decide)]
    rfl
  · exact (reset_retry_loop demoEnvNever none false false false gZero 0 7).2
      (fun k => rfl)

/-- C5: the `dt` property equals the simulator's fixed timestep multiplied
by the substep count exactly, the metadata frame rate equals
`round(1 / dt)` truncated to an integer, and for `substep_count = 20` with
`timestep = 0.002` the value of `dt` is `0.04` and the declared fps is
`25`. -/
theorem dt_fps_exact (env : RobotEnv) :
    env.dt = env.timestep * env.nsubsteps
    ∧ env.metadataFps = pyInt ((npRound (1 / env.dt) : ℤ) : ℚ)
    ∧ (env.nsubsteps = 20 → env.timestep = 0.002 →
        env.dt = 0.04 ∧ env.metadataFps = 25) := by
  refine ⟨rfl, rfl, fun hn ht => ⟨?_, ?_⟩⟩
  · rw [RobotEnv.dt, hn, ht]
    norm_num
  · rw [RobotEnv.metadataFps, hn, ht]
    norm_num [videoFps, dtOf, npRound, ratFloorZ, pyInt]

/-- Witness for C5 at a concrete environment with `timestep = 0.002` and
`nsubsteps = 20`. -/
theorem dt_fps_exact_witness : demoEnv.dt = 0.04 ∧ demoEnv.metadataFps = 25 :=
  (dt_fps_exact demoEnv).2.2 rfl rfl

/-- C6: at construction, a `model_path` that does not start with `/` is
resolved relative to the assets directory, an absolute path is used as-is,
and if the resolved path does not exist the constructor raises an I/O error
before any simulator interaction (the error branch performs no simulator
calls and is never retried); simulator calls happen only when the file
exists. -/
theorem model_path_resolution (fe : String → Bool) (d mp : String) (n : Nat) :
    (strStartsWith mp "/" = true → resolveModelPath d mp = mp)
    ∧ (strStartsWith mp "/" = false →
        resolveModelPath d mp = posixJoin (posixJoin d "assets") mp)
    ∧ (fe (resolveModelPath d mp) = false →
        initLoad fe d mp n = Except.error (PyError.ioError
          ("File " ++ resolveModelPath d mp ++ " does not exist")))
    ∧ (∀ calls, initLoad fe d mp n = Except.ok calls →
        fe (resolveModelPath d mp) = true
        ∧ calls = [SimCall.loadModel (resolveModelPath d mp), SimCall.mkSim n]) := by
  refine ⟨fun h => ?_, fun h => ?_, fun h => ?_, fun calls h => ?_⟩
  · simp [resolveModelPath, h]
  · simp [resolveModelPath, h]
  · simp [initLoad, h]
  · cases hfe : fe (resolveModelPath d mp) with
    | false => simp [initLoad, hfe] at h
    | true =>
      simp [initLoad, hfe] at h
      exact ⟨rfl, h.symm⟩

/-- Witness for C6 on concrete paths: an absolute path is kept, a relative
path lands under the assets directory, and a missing file yields the
`IOError` with no simulator interaction. -/
theorem model_path_resolution_witness :
    resolveModelPath "/base" "/scene.xml" = "/scene.xml"
    ∧ resolveModelPath "/base" "fetch/pick.xml" = "/base/assets/fetch/pick.xml"
    ∧ initLoad (fun _ => false) "/base" "fetch/pick.xml" 20
        = Except.error (PyError.ioError
            "File /base/assets/fetch/pick.xml does not exist") := by
  refine ⟨(model_path_resolution (fun _ => false) "/base" "/scene.xml" 20).1
            (by decide), ?_, ?_⟩
  · rw [(model_path_resolution (fun _ => false) "/base" "fetch/pick.xml" 20).2.1
      (by decide)]
    rfl
  · rw [(model_path_resolution (fun _ => false) "/base" "fetch/pick.xml" 20).2.2.1 rfl]
    rfl

/-- C7: the scene-randomization helpers run during `reset` only when the
corresponding flag is passed as true — with the Python default arguments
(all flags false) `reset` performs no scene randomization and draws nothing
from the global RNG before the retry loop — and each helper mutates only its
rendering-layer parameters (geom appearances for `rand_texture`, the light
for `set_light`, the camera position for `set_camera`), never the physics
state `_reset_sim` restores. -/
theorem scene_randomization_render_only (env : RobotEnv) (g : GlobalRng) (fuel : Nat) :
    (rand_texture env g).1.sim.phys = env.sim.phys
    ∧ (rand_texture env g).1.sim.render.light = env.sim.render.light
    ∧ (rand_texture env g).1.sim.render.cameraPos = env.sim.render.cameraPos
    ∧ (set_light env g).1.sim.phys = env.sim.phys
    ∧ (set_light env g).1.sim.render.geoms = env.sim.render.geoms
    ∧ (set_light env g).1.sim.render.cameraPos = env.sim.render.cameraPos
    ∧ (set_camera env g).1.sim.phys = env.sim.phys
    ∧ (set_camera env g).1.sim.render.geoms = env.sim.render.geoms
    ∧ (set_camera env g).1.sim.render.light = env.sim.render.light
    ∧ resetPre env false false false g = ({ env with goal := env.sample_goal env.sim }, g)
    ∧ resetDefault env fuel g = reset env fuel none false false false g :=
  ⟨rfl, rfl, rfl, rfl, rfl, rfl, rfl, rfl, rfl, rfl, rfl⟩

/-- C8: `close` releases the viewer if present and is idempotent, and after
`close` a subsequent `render("human")` lazily recreates a viewer through
`_get_viewer` — running the `_viewer_setup` hook on the freshly created
viewer — rather than failing. -/
theorem close_idempotent_render_recreates (env : RobotEnv) :
    env.close.close = env.close
    ∧ env.close.viewer = none
    ∧ (env.close.render "human").2.viewer = some (env.viewer_setup mkViewer)
    ∧ (env.close.render "human").1 = none := by
  cases hv : env.viewer <;>
    simp [RobotEnv.close, RobotEnv.render, RobotEnv.getViewer, hv]

theorem getViewer_action_space (env : RobotEnv) :
    env.getViewer.2.action_space = env.action_space := by
  cases hv : env.viewer <;> simp [RobotEnv.getViewer, hv]

theorem resetPre_action_space (env : RobotEnv) (rt rsh rc : Bool) (g : GlobalRng) :
    (resetPre env rt rsh rc g).1.action_space = env.action_space := by
  cases rt <;> cases rsh <;> cases rc <;> rfl

/-- C9: the action space constructed at initialization is a bounding box of
shape `(n_actions,)` with symmetric bounds whose magnitude is `1.0` when
`n_actions = 4` and `π` for every other `n_actions`, and no public operation
(`step`, `seed`, `close`, `render`, the randomization helpers, `reset`)
modifies the `action_space` field. -/
theorem action_space_construction (n : Nat) (env : RobotEnv) (a : Vec)
    (s : Option Nat) (m : String) (fuel : Nat) (op : Option Vec)
    (rt rsh rc : Bool) (g : GlobalRng) :
    (mkActionSpace n).low.length = n
    ∧ (mkActionSpace n).high.length = n
    ∧ (mkActionSpace n).low = (mkActionSpace n).high.map (fun x => -x)
    ∧ (n = 4 → (mkActionSpace n).high = List.replicate n 1)
    ∧ (n ≠ 4 → (mkActionSpace n).high = List.replicate n npPi)
    ∧ (env.step a).2.action_space = env.action_space
    ∧ (env.seed s).1.action_space = env.action_space
    ∧ env.close.action_space = env.action_space
    ∧ (env.render m).2.action_space = env.action_space
    ∧ (rand_texture env g).1.action_space = env.action_space
    ∧ (set_light env g).1.action_space = env.action_space
    ∧ (set_camera env g).1.action_space = env.action_space
    ∧ ((reset env fuel op rt rsh rc g).map (fun r => r.2.1.action_space)).getD
        env.action_space = env.action_space := by
  refine ⟨by simp [mkActionSpace], by simp [mkActionSpace], ?_, ?_, ?_,
    rfl, rfl, ?_, ?_, rfl, rfl, rfl, ?_⟩
  · simp [mkActionSpace, List.map_replicate]
  · intro h
    subst h
    simp [mkActionSpace, actionVal]
  · intro h
    simp [mkActionSpace, actionVal, h]
  · cases hv : env.viewer <;> simp [RobotEnv.close, hv]
  · unfold RobotEnv.render
    split_ifs <;> simp [getViewer_action_space]
  · cases hr : resetSimLoop ((resetPre env rt rsh rc g).1.reset_sim op) fuel
        (resetPre env rt rsh rc g).1.sim with
    | none => simp [reset, hr]
    | some st => simp [reset, hr, resetPre_action_space]

/-- Witness for C9: the gripper-style convention at `n_actions = 4` gives
bound `1`, any other dimensionality gives bound `π`. -/
theorem action_space_construction_witness :
    (mkActionSpace 4).high = List.replicate 4 1
    ∧ (mkActionSpace 5).high = List.replicate 5 npPi :=
  ⟨(action_space_construction 4 demoEnv [] none "human" 1 none false false false
      gZero).2.2.2.1 rfl,
   (action_space_construction 5 demoEnv [] none "human" 1 none false false false
      gZero).2.2.2.2.1 (by decide)⟩

/-- C10: scene randomization is not determined by the adapter's seed:
`seed` installs the instance RNG `np_random`, but `set_light` and
`set_camera` draw from the process-global numpy RNG — their effect on the
simulator scene is invariant under the instance RNG, and two adapters seeded
with the same value can produce different light directions and camera
positions on `reset` with `rand_shadow` or `rand_cam` enabled, depending
only on the global RNG state. -/
theorem global_rng_nondeterminism (env : RobotEnv) (n : Nat)
    (r r' : NpRandom) (g : GlobalRng) :
    (env.seed (some n)).1.np_random = (np_random_mk (some n)).1
    ∧ (set_light { env with np_random := r } g).1.sim
        = (set_light { env with np_random := r' } g).1.sim
    ∧ (set_light { env with np_random := r } g).2
        = (set_light { env with np_random := r' } g).2
    ∧ (set_camera { env with np_random := r } g).1.sim
        = (set_camera { env with np_random := r' } g).1.sim
    ∧ (∃ g1 g2 : GlobalRng,
        adapterA.np_random = adapterB.np_random
        ∧ (reset adapterA 1 none false true false g1).map
            (fun x => x.2.1.sim.render.light.dir)
          ≠ (reset adapterB 1 none false true false g2).map
            (fun x => x.2.1.sim.render.light.dir)
        ∧ (reset adapterA 1 none false false true g1).map
            (fun x => x.2.1.sim.render.cameraPos)
          ≠ (reset adapterB 1 none false false true g2).map
            (fun x => x.2.1.sim.render.cameraPos)) := by
  refine ⟨rfl, rfl, rfl, rfl, gZero, gOne, rfl, ?_, ?_⟩
  · have hA : (reset adapterA 1 none false true false gZero).map
        (fun x => x.2.1.sim.render.light.dir)
        = some [(-0.9 : ℚ) + (0.1 - -0.9) * 0, -0.9 + (0.9 - -0.9) * 0,
                -0.9 + (0 - -0.9) * 0] := rfl
    have hB : (reset adapterB 1 none false true false gOne).map
        (fun x => x.2.1.sim.render.light.dir)
        = some [(-0.9 : ℚ) + (0.1 - -0.9) * 1, -0.9 + (0.9 - -0.9) * 1,
                -0.9 + (0 - -0.9) * 1] := rfl
    rw [hA, hB]
    intro h
    have h' := Option.some.inj h
    norm_num at h'
  · have hA : (reset adapterA 1 none false false true gZero).map
        (fun x => x.2.1.sim.render.cameraPos)
        = some [(0 : ℚ) + 1, 0 + 0.05 * 0 + 0.75, 0 + 1.5] := rfl
    have hB : (reset adapterB 1 none false false true gOne).map
        (fun x => x.2.1.sim.render.cameraPos)
        = some [(0 : ℚ) + 1, 0 + 0.05 * 1 + 0.75, 0 + 1.5] := rfl
    rw [hA, hB]
    intro h
    have h' := Option.some.inj h
    norm_num at h'

/-- Witness for C10 at a concrete seed: `seed` installs the instance RNG
derived from the given seed. -/
theorem global_rng_nondeterminism_witness :
    (demoEnv.seed (some 42)).1.np_random = (np_random_mk (some 42)).1 :=
  (global_rng_nondeterminism demoEnv 42 ⟨0⟩ ⟨1⟩ gZero).1

/-- Witness for C4 at a concrete environment and state: the retry-loop
invocation of the default `_reset_sim` raises `TypeError`. -/
theorem reset_sim_arity_mismatch_witness :
    invokeDefaultResetSim demoEnv resetCallArgCount demoSim
      = Except.error (PyError.typeError
          "_reset_sim takes 1 positional argument but 2 were given") :=
  (reset_sim_arity_mismatch.2.2.2 demoEnv demoSim).1

end RobotEnvSpec
